import Mathlib

/-!
Shallow embedding of the fabric-js video-controls component
(src/src/app/app.component.ts).

Numbers held in JavaScript variables are modelled as rationals; where the
source can divide by zero (IEEE division producing NaN or an infinity) the
result of the division is modelled by the type JSVal, whose nonFinite
constructor stands for any non-finite IEEE value.  DOM elements that may be
absent (the ViewChild refs guarded by optional chaining in the source) are
modelled as Option fields.  Side effects that the component requests from
its collaborators (fabric repaints, frame pushes into the image object, and
the self-rescheduled animation-frame callbacks) are modelled by counters in
the state.
-/

/-- Result of a JavaScript floating-point computation: either a finite value
or a non-finite one (NaN or an infinity, as produced by dividing by zero). -/
inductive JSVal where
  | finite (q : ℚ)
  | nonFinite
deriving DecidableEq

/-- JavaScript division: dividing by zero yields a non-finite value
(NaN when the numerator is 0, an infinity otherwise). -/
def jsDiv (a b : ℚ) : JSVal :=
  if b = 0 then JSVal.nonFinite else JSVal.finite (a / b)

/-- Multiplying a JavaScript value by a finite constant: non-finite stays
non-finite. -/
def jsMulC (v : JSVal) (c : ℚ) : JSVal :=
  match v with
  | JSVal.finite q => JSVal.finite (q * c)
  | JSVal.nonFinite => JSVal.nonFinite

/-- JavaScript truncation toward zero, used by the remainder operator. -/
def jsTrunc (q : ℚ) : ℤ :=
  if 0 ≤ q then ⌊q⌋ else ⌈q⌉

/-- The JavaScript remainder operator on finite numbers with a nonzero
divisor: a percent b equals a - b * trunc(a / b). -/
def jsMod (a b : ℚ) : ℚ :=
  a - b * (jsTrunc (a / b) : ℚ)

/-- Decimal digit character, as produced by JavaScript Number.toString(). -/
def digitChar (k : ℕ) : Char := Char.ofNat (48 + k)

/-- Fuel-based accumulator loop producing the decimal digits of a natural
number, most significant first (the digit order of Number.toString()). -/
def natDecCore : ℕ → ℕ → List Char → List Char
  | 0, _, acc => acc
  | fuel + 1, n, acc =>
      if n < 10 then digitChar (n % 10) :: acc
      else natDecCore fuel (n / 10) (digitChar (n % 10) :: acc)

/-- Number.toString() for a natural number. -/
def natToDec (n : ℕ) : String := String.mk (natDecCore (n + 1) n [])

/-- Number.toString() for an integer (negative values get a sign). -/
def intToDec (i : ℤ) : String :=
  if i < 0 then String.mk ['-'] ++ natToDec i.natAbs else natToDec i.toNat

/-- JavaScript String.prototype.padStart applied with arguments 2 and the
character 0. -/
def padStart2 (s : String) : String :=
  String.mk (List.replicate (2 - s.length) '0') ++ s

/-- The private method that formats a given time in seconds into hh:mm:ss
format: hours, minutes and seconds fields computed with Math.floor and the
remainder operator, each zero-padded to two characters (the source binds
the three fields with consts; they are inlined here). -/
def formatTime (seconds : ℚ) : String :=
  padStart2 (intToDec ⌊seconds / 3600⌋) ++ ":" ++
    padStart2 (intToDec ⌊jsMod seconds 3600 / 60⌋) ++ ":" ++
      padStart2 (intToDec ⌊jsMod seconds 60⌋)

/-- State of the scrubber input element: its value and max attributes (read
through parseFloat in the source) and the percentage stop interpolated into
its background gradient string. -/
structure ScrubberEl where
  value : ℚ
  max : ℚ
  background : JSVal
deriving DecidableEq

/-- Inline style of the controls container div: the fields mutated by the
component. -/
structure ControlsStyle where
  width : ℚ
  left : ℚ
  top : ℚ
  visibility : String
deriving DecidableEq

/-- A bounding rectangle as returned by fabric's getBoundingRect on the
video object.  The fabric object and its geometry are owned by the canvas
collaborator; the component only reads this snapshot. -/
structure Rect where
  left : ℚ
  top : ℚ
  width : ℚ
  height : ℚ
deriving DecidableEq

/-- The component state: the six state fields declared on AppComponent,
the observable state of the playback element, the bounding rectangle of the
fabric video object, the two optional DOM targets, and counters for the
effects requested from the collaborators.  pendingRenderLoops counts the
self-rescheduling animation-frame callback chains currently alive. -/
structure AppState where
  isPlaying : Bool
  videoDuration : ℚ
  currentTime : ℚ
  currentTimeLabel : String
  videoDurationLabel : String
  loop : Bool
  videoPaused : Bool
  videoCurrentTime : ℚ
  videoLoop : Bool
  videoObjectBounding : Rect
  scrubber : Option ScrubberEl
  controls : Option ControlsStyle
  repaintCount : ℕ
  framePushCount : ℕ
  pendingRenderLoops : ℕ
deriving DecidableEq

/-- One execution of the render closure body in renderVideoFrame, without
the trailing requestAnimFrame call (which is modelled at the scheduler
level).  While playing it pushes the current frame into the image object,
updates the scrubber gradient with currentTime / duration * 100, requests a
repaint, and refreshes currentTime and its label; otherwise it does
nothing. -/
def renderTick (s : AppState) : AppState :=
  if s.isPlaying then
    let s1 := { s with framePushCount := s.framePushCount + 1 }
    let s2 :=
      match s1.scrubber with
      | some sc =>
          { s1 with scrubber := some { sc with
              background := jsMulC (jsDiv s1.videoCurrentTime s1.videoDuration) 100 } }
      | none => s1
    let s3 := { s2 with repaintCount := s2.repaintCount + 1 }
    { s3 with currentTime := s3.videoCurrentTime,
              currentTimeLabel := formatTime s3.videoCurrentTime }
  else s

/-- Execution of one scheduled render callback by the animation-frame
scheduler: the callback runs its body and then reschedules itself exactly
once, so the number of pending callback chains is unchanged. -/
def runScheduledRender (s : AppState) : AppState := renderTick s

/-- The renderVideoFrame method: defines the render closure and calls it
immediately; the closure body runs once and its trailing requestAnimFrame
leaves one new permanently self-rescheduling callback chain behind. -/
def renderVideoFrame (s : AppState) : AppState :=
  { renderTick s with pendingRenderLoops := s.pendingRenderLoops + 1 }

/-- The playPauseVideo method: calls play or pause on the element depending
on its paused flag (play may be rejected by the host, in which case the
element stays paused — the playSucceeds parameter), then calls
renderVideoFrame, then flips isPlaying unconditionally. -/
def playPauseVideo (playSucceeds : Bool) (s : AppState) : AppState :=
  let s1 :=
    if s.videoPaused then
      if playSucceeds then { s with videoPaused := false } else s
    else { s with videoPaused := true }
  let s2 := renderVideoFrame s1
  { s2 with isPlaying := !s2.isPlaying }

/-- The changeLoopSetting method: flips the element loop flag, mirrors it
into the component loop field, and requests a repaint. -/
def changeLoopSetting (s : AppState) : AppState :=
  let s1 := { s with videoLoop := !s.videoLoop }
  let s2 := { s1 with loop := s1.videoLoop }
  { s2 with repaintCount := s2.repaintCount + 1 }

/-- The onScrubberChange method: when the scrubber element exists, updates
its gradient with value / max * 100, writes its value into the element
currentTime, mirrors that into the component currentTime and label; in all
cases requests a repaint. -/
def onScrubberChange (s : AppState) : AppState :=
  let s1 :=
    match s.scrubber with
    | some sc =>
        let sA := { s with scrubber := some { sc with
            background := jsMulC (jsDiv sc.value sc.max) 100 } }
        let sB := { sA with videoCurrentTime := sc.value }
        { sB with currentTime := sB.videoCurrentTime,
                  currentTimeLabel := formatTime sB.videoCurrentTime }
    | none => s
  { s1 with repaintCount := s1.repaintCount + 1 }

/-- The private visibility toggle: sets the visibility style of the
controls element when it exists, otherwise does nothing. -/
def toggleControlVisibility (styleVal : String) (s : AppState) : AppState :=
  match s.controls with
  | some c => { s with controls := some { c with visibility := styleVal } }
  | none => s

/-- Minimum amount of width the controls require to not overflow or wrap. -/
def MIN_CONTROL_WIDTH : ℚ := 340

/-- Extra space to put the controls visually slightly below the object. -/
def CONTROL_OFFSET : ℚ := 5

/-- The private method updating the control position: hides the controls,
reads the bounding rectangle of the fabric video object, computes the
clamped width, the top just below the object and the horizontally centered
left, and writes them into the controls style when the element exists. -/
def updateControlsPosition (s : AppState) : AppState :=
  let s0 := toggleControlVisibility "hidden" s
  let br := s0.videoObjectBounding
  let controlWidth : ℚ := max br.width MIN_CONTROL_WIDTH
  let controlTop : ℚ := br.top + br.height + CONTROL_OFFSET
  let controlLeft : ℚ := br.left + (br.width / 2 - controlWidth / 2)
  match s0.controls with
  | some c => { s0 with controls := some { c with
      width := controlWidth, left := controlLeft, top := controlTop } }
  | none => s0

/-- The onloadedmetadata handler installed in setupCanvas: stores the
element duration and formats the duration label. -/
def onLoadedMetadata (d : ℚ) (s : AppState) : AppState :=
  { s with videoDuration := d, videoDurationLabel := formatTime d }

/-- The onended handler installed in setupCanvas: clears isPlaying. -/
def onEnded (s : AppState) : AppState :=
  { s with isPlaying := false }

/-- The component state right after the field initializers have run and
setupCanvas has created the muted video element (paused, loop off, time 0,
metadata not yet loaded) and the fabric image object at a fifth of the
1920 by 1080 canvas with scale 0.3; both DOM targets exist. -/
def initialState : AppState where
  isPlaying := false
  videoDuration := 0
  currentTime := 0
  currentTimeLabel := "00:00:00"
  videoDurationLabel := "00:00:00"
  loop := false
  videoPaused := true
  videoCurrentTime := 0
  videoLoop := false
  videoObjectBounding := { left := 384, top := 216, width := 576, height := 324 }
  scrubber := some { value := 0, max := 0, background := JSVal.finite 0 }
  controls := some { width := 0, left := 0, top := 0, visibility := "visible" }
  repaintCount := 0
  framePushCount := 0
  pendingRenderLoops := 0

/-- The state-relevant tail of setupCanvas, run on the freshly initialized
state: it calls playPauseVideo (which itself calls renderVideoFrame), sets
the initial control position, makes the controls visible, installs the
canvas event handlers, and finally calls renderVideoFrame a second time. -/
def setupCanvas (s : AppState) : AppState :=
  renderVideoFrame (toggleControlVisibility "visible"
    (updateControlsPosition (playPauseVideo true s)))

/-- The states the component can be in: the state right after setupCanvas,
closed under scheduled render callbacks, the three UI commands, the two
element notifications, the canvas geometry events (with the geometry
mutated externally to an arbitrary rectangle before the handler runs), the
pointer-up handler, and playback progress or scrubber input mutating the
collaborator-owned fields. -/
inductive Reachable : AppState → Prop where
  | setup : Reachable (setupCanvas initialState)
  | tick {s} : Reachable s → Reachable (runScheduledRender s)
  | toggle {s} (b : Bool) : Reachable s → Reachable (playPauseVideo b s)
  | loopToggle {s} : Reachable s → Reachable (changeLoopSetting s)
  | scrub {s} : Reachable s → Reachable (onScrubberChange s)
  | geometry {s} (r : Rect) :
      Reachable s → Reachable (updateControlsPosition { s with videoObjectBounding := r })
  | pointerUp {s} : Reachable s → Reachable (toggleControlVisibility "visible" s)
  | metadata {s} (d : ℚ) : Reachable s → Reachable (onLoadedMetadata d s)
  | ended {s} : Reachable s → Reachable (onEnded s)
  | timeAdvance {s} (t : ℚ) : Reachable s → Reachable { s with videoCurrentTime := t }
  | scrubberInput {s} (sc : ScrubberEl) : Reachable s → Reachable { s with scrubber := some sc }

/-- The full-match semantics of the regular expression for zero-padded
clock strings: at least two digits, a colon, exactly two digits, a colon,
exactly two digits. -/
def matchesHMS (s : String) : Prop :=
  ∃ a b c : String,
    s = a ++ ":" ++ b ++ ":" ++ c ∧
      2 ≤ a.length ∧ (∀ ch ∈ a.data, ch.isDigit = true) ∧
      b.length = 2 ∧ (∀ ch ∈ b.data, ch.isDigit = true) ∧
      c.length = 2 ∧ (∀ ch ∈ c.data, ch.isDigit = true)

/-- Modelled from the spec: the version of onScrubberChange that claim C8
reads into the spec's error taxonomy, in which a missing scrubber element
no-ops only the gradient style mutation while the rest of the handler's
work (seek, currentTime mirror, label, repaint) still happens; the seek
target that the code would read from the element is passed explicitly. -/
def onScrubberChangeSkipGradientOnly (rawValue rawMax : ℚ) (s : AppState) : AppState :=
  let s1 :=
    match s.scrubber with
    | some sc =>
        { s with scrubber := some { sc with
            background := jsMulC (jsDiv rawValue rawMax) 100 } }
    | none => s
  let s2 := { s1 with videoCurrentTime := rawValue }
  let s3 := { s2 with currentTime := s2.videoCurrentTime,
                      currentTimeLabel := formatTime s2.videoCurrentTime }
  { s3 with repaintCount := s3.repaintCount + 1 }

lemma digitChar_isDigit (k : ℕ) (h : k < 10) : (digitChar k).isDigit = true := by
  interval_cases k <;> decide

lemma natDecCore_all_digit :
    ∀ fuel n : ℕ, ∀ acc : List Char, (∀ ch ∈ acc, ch.isDigit = true) →
      ∀ ch ∈ natDecCore fuel n acc, ch.isDigit = true := by
  intro fuel
  induction fuel with
  | zero => intro n acc hacc; simpa [natDecCore] using hacc
  | succ fuel ih =>
      intro n acc hacc
      have hd : (digitChar (n % 10)).isDigit = true :=
        digitChar_isDigit _ (Nat.mod_lt _ (by norm_num))
      have hacc2 : ∀ ch ∈ digitChar (n % 10) :: acc, ch.isDigit = true := by
        intro ch hch
        rcases List.mem_cons.mp hch with h1 | h2
        · simpa [h1] using hd
        · exact hacc ch h2
      by_cases h10 : n < 10
      · simpa [natDecCore, h10] using hacc2
      · simpa [natDecCore, h10] using ih (n / 10) _ hacc2

lemma natDecCore_length_mono :
    ∀ fuel n : ℕ, ∀ acc : List Char, acc.length ≤ (natDecCore fuel n acc).length := by
  intro fuel
  induction fuel with
  | zero => intro n acc; simp [natDecCore]
  | succ fuel ih =>
      intro n acc
      by_cases h10 : n < 10
      · simp [natDecCore, h10]
      · calc acc.length ≤ (digitChar (n % 10) :: acc).length := by simp
          _ ≤ _ := by simpa [natDecCore, h10] using ih (n / 10) (digitChar (n % 10) :: acc)

lemma natToDec_all_digit (n : ℕ) : ∀ ch ∈ (natToDec n).data, ch.isDigit = true := by
  intro ch hch
  exact natDecCore_all_digit (n + 1) n [] (by intro ch h; cases h) ch hch

lemma natToDec_length_pos (n : ℕ) : 1 ≤ (natToDec n).length := by
  unfold natToDec
  rw [String.length_mk]
  by_cases h10 : n < 10
  · simp [natDecCore, h10]
  · have := natDecCore_length_mono n (n / 10) (digitChar (n % 10) :: [])
    simpa [natDecCore, h10] using this

lemma natDecCore_small (fuel n : ℕ) (acc : List Char) (hf : 0 < fuel) (h : n < 10) :
    natDecCore fuel n acc = digitChar (n % 10) :: acc := by
  cases fuel with
  | zero => omega
  | succ fuel => simp [natDecCore, h]

lemma natToDec_length_le_two (n : ℕ) (h : n < 100) : (natToDec n).length ≤ 2 := by
  unfold natToDec
  rw [String.length_mk]
  by_cases h10 : n < 10
  · simp [natDecCore, h10]
  · have h1 : natDecCore (n + 1) n [] = natDecCore n (n / 10) [digitChar (n % 10)] := by
      simp [natDecCore, h10]
    have h2 : n / 10 < 10 := by omega
    rw [h1, natDecCore_small n (n / 10) _ (by omega) h2]
    simp

lemma intToDec_of_nonneg (i : ℤ) (h : 0 ≤ i) : intToDec i = natToDec i.toNat := by
  simp [intToDec, not_lt.mpr h]

lemma padStart2_length (s : String) : (padStart2 s).length = 2 - s.length + s.length := by
  rw [padStart2, String.length_append, String.length_mk, List.length_replicate]

lemma padStart2_length_ge (s : String) : 2 ≤ (padStart2 s).length := by
  rw [padStart2_length]; omega

lemma padStart2_length_eq_two (s : String) (h : s.length ≤ 2) : (padStart2 s).length = 2 := by
  rw [padStart2_length]; omega

lemma padStart2_all_digit (s : String) (h : ∀ ch ∈ s.data, ch.isDigit = true) :
    ∀ ch ∈ (padStart2 s).data, ch.isDigit = true := by
  intro ch hch
  rw [padStart2, String.data_append] at hch
  rcases List.mem_append.mp hch with h1 | h2
  · have : ch = '0' := List.eq_of_mem_replicate h1
    simp [this]
  · exact h ch h2

lemma jsTrunc_of_nonneg (q : ℚ) (h : 0 ≤ q) : jsTrunc q = ⌊q⌋ := by
  simp [jsTrunc, h]

lemma jsMod_eq_fract (a b : ℚ) (ha : 0 ≤ a) (hb : 0 < b) :
    jsMod a b = b * Int.fract (a / b) := by
  have h0 : (0 : ℚ) ≤ a / b := div_nonneg ha hb.le
  rw [jsMod, jsTrunc_of_nonneg _ h0, Int.fract]
  field_simp

lemma jsMod_nonneg (a b : ℚ) (ha : 0 ≤ a) (hb : 0 < b) : 0 ≤ jsMod a b := by
  rw [jsMod_eq_fract a b ha hb]
  exact mul_nonneg hb.le (Int.fract_nonneg _)

lemma jsMod_lt (a b : ℚ) (ha : 0 ≤ a) (hb : 0 < b) : jsMod a b < b := by
  rw [jsMod_eq_fract a b ha hb]
  calc b * Int.fract (a / b) < b * 1 :=
        mul_lt_mul_of_pos_left (Int.fract_lt_one _) hb
    _ = b := mul_one b

lemma padded_floor_small (x : ℚ) (hx0 : 0 ≤ x) (hx : x < 60) :
    (padStart2 (intToDec ⌊x⌋)).length = 2 ∧
      ∀ ch ∈ (padStart2 (intToDec ⌊x⌋)).data, ch.isDigit = true := by
  have hge : (0 : ℤ) ≤ ⌊x⌋ := Int.floor_nonneg.mpr hx0
  have hlt : ⌊x⌋ < 60 := by
    have := Int.floor_le_floor hx.le
    have h60 : ⌊x⌋ < (60 : ℤ) := by
      rw [Int.floor_lt]
      push_cast
      exact hx
    exact h60
  have hnat : ⌊x⌋.toNat < 100 := by omega
  rw [intToDec_of_nonneg _ hge]
  refine ⟨padStart2_length_eq_two _ (natToDec_length_le_two _ hnat), ?_⟩
  exact padStart2_all_digit _ (natToDec_all_digit _)

lemma formatTime_eq_of (q : ℚ) (h m s : ℤ)
    (Hh : ⌊q / 3600⌋ = h) (Hm : ⌊jsMod q 3600 / 60⌋ = m) (Hs : ⌊jsMod q 60⌋ = s) :
    formatTime q = padStart2 (intToDec h) ++ ":" ++ padStart2 (intToDec m) ++ ":" ++
      padStart2 (intToDec s) := by
  unfold formatTime
  rw [Hh, Hm, Hs]

lemma formatTime_sixty : formatTime 60 = "00:01:00" := by
  rw [formatTime_eq_of 60 0 1 0 (by norm_num) (by norm_num [jsMod, jsTrunc])
    (by norm_num [jsMod, jsTrunc])]
  decide

@[simp] lemma renderTick_isPlaying (s : AppState) : (renderTick s).isPlaying = s.isPlaying := by
  by_cases h : s.isPlaying <;> cases hs : s.scrubber <;> simp [renderTick, h, hs]

@[simp] lemma renderTick_loop (s : AppState) : (renderTick s).loop = s.loop := by
  by_cases h : s.isPlaying <;> cases hs : s.scrubber <;> simp [renderTick, h, hs]

@[simp] lemma renderTick_videoLoop (s : AppState) : (renderTick s).videoLoop = s.videoLoop := by
  by_cases h : s.isPlaying <;> cases hs : s.scrubber <;> simp [renderTick, h, hs]

@[simp] lemma renderTick_videoPaused (s : AppState) : (renderTick s).videoPaused = s.videoPaused := by
  by_cases h : s.isPlaying <;> cases hs : s.scrubber <;> simp [renderTick, h, hs]

@[simp] lemma renderTick_pending (s : AppState) :
    (renderTick s).pendingRenderLoops = s.pendingRenderLoops := by
  by_cases h : s.isPlaying <;> cases hs : s.scrubber <;> simp [renderTick, h, hs]

@[simp] lemma renderVideoFrame_isPlaying (s : AppState) :
    (renderVideoFrame s).isPlaying = s.isPlaying := by simp [renderVideoFrame]

@[simp] lemma renderVideoFrame_loop (s : AppState) :
    (renderVideoFrame s).loop = s.loop := by simp [renderVideoFrame]

@[simp] lemma renderVideoFrame_videoLoop (s : AppState) :
    (renderVideoFrame s).videoLoop = s.videoLoop := by simp [renderVideoFrame]

@[simp] lemma renderVideoFrame_videoPaused (s : AppState) :
    (renderVideoFrame s).videoPaused = s.videoPaused := by simp [renderVideoFrame]

@[simp] lemma renderVideoFrame_pending (s : AppState) :
    (renderVideoFrame s).pendingRenderLoops = s.pendingRenderLoops + 1 := by
  simp [renderVideoFrame]

@[simp] lemma playPauseVideo_isPlaying (b : Bool) (s : AppState) :
    (playPauseVideo b s).isPlaying = !s.isPlaying := by
  by_cases h : s.videoPaused <;> cases b <;> simp [playPauseVideo, h]

@[simp] lemma playPauseVideo_loop (b : Bool) (s : AppState) :
    (playPauseVideo b s).loop = s.loop := by
  by_cases h : s.videoPaused <;> cases b <;> simp [playPauseVideo, h]

@[simp] lemma playPauseVideo_videoLoop (b : Bool) (s : AppState) :
    (playPauseVideo b s).videoLoop = s.videoLoop := by
  by_cases h : s.videoPaused <;> cases b <;> simp [playPauseVideo, h]

@[simp] lemma playPauseVideo_pending (b : Bool) (s : AppState) :
    (playPauseVideo b s).pendingRenderLoops = s.pendingRenderLoops + 1 := by
  by_cases h : s.videoPaused <;> cases b <;> simp [playPauseVideo, h]

@[simp] lemma changeLoopSetting_loop (s : AppState) :
    (changeLoopSetting s).loop = !s.videoLoop := by simp [changeLoopSetting]

@[simp] lemma changeLoopSetting_videoLoop (s : AppState) :
    (changeLoopSetting s).videoLoop = !s.videoLoop := by simp [changeLoopSetting]

@[simp] lemma changeLoopSetting_pending (s : AppState) :
    (changeLoopSetting s).pendingRenderLoops = s.pendingRenderLoops := by
  simp [changeLoopSetting]

@[simp] lemma onScrubberChange_loop (s : AppState) :
    (onScrubberChange s).loop = s.loop := by
  cases hs : s.scrubber <;> simp [onScrubberChange, hs]

@[simp] lemma onScrubberChange_videoLoop (s : AppState) :
    (onScrubberChange s).videoLoop = s.videoLoop := by
  cases hs : s.scrubber <;> simp [onScrubberChange, hs]

@[simp] lemma onScrubberChange_isPlaying (s : AppState) :
    (onScrubberChange s).isPlaying = s.isPlaying := by
  cases hs : s.scrubber <;> simp [onScrubberChange, hs]

@[simp] lemma onScrubberChange_pending (s : AppState) :
    (onScrubberChange s).pendingRenderLoops = s.pendingRenderLoops := by
  cases hs : s.scrubber <;> simp [onScrubberChange, hs]

@[simp] lemma toggleControlVisibility_loop (v : String) (s : AppState) :
    (toggleControlVisibility v s).loop = s.loop := by
  cases hc : s.controls <;> simp [toggleControlVisibility, hc]

@[simp] lemma toggleControlVisibility_videoLoop (v : String) (s : AppState) :
    (toggleControlVisibility v s).videoLoop = s.videoLoop := by
  cases hc : s.controls <;> simp [toggleControlVisibility, hc]

@[simp] lemma toggleControlVisibility_isPlaying (v : String) (s : AppState) :
    (toggleControlVisibility v s).isPlaying = s.isPlaying := by
  cases hc : s.controls <;> simp [toggleControlVisibility, hc]

@[simp] lemma toggleControlVisibility_videoPaused (v : String) (s : AppState) :
    (toggleControlVisibility v s).videoPaused = s.videoPaused := by
  cases hc : s.controls <;> simp [toggleControlVisibility, hc]

@[simp] lemma toggleControlVisibility_pending (v : String) (s : AppState) :
    (toggleControlVisibility v s).pendingRenderLoops = s.pendingRenderLoops := by
  cases hc : s.controls <;> simp [toggleControlVisibility, hc]

/-- Frame property of the geometry handler: every field other than the
controls style is untouched. -/
lemma updateControlsPosition_frame (s : AppState) :
    updateControlsPosition s = { s with controls := (updateControlsPosition s).controls } := by
  cases hc : s.controls with
  | none =>
      have h1 : updateControlsPosition s = s := by
        simp [updateControlsPosition, toggleControlVisibility, hc]
      rw [h1]
  | some c =>
      simp [updateControlsPosition, toggleControlVisibility, hc]

@[simp] lemma updateControlsPosition_loop (s : AppState) :
    (updateControlsPosition s).loop = s.loop := by
  conv_lhs => rw [updateControlsPosition_frame]

@[simp] lemma updateControlsPosition_videoLoop (s : AppState) :
    (updateControlsPosition s).videoLoop = s.videoLoop := by
  conv_lhs => rw [updateControlsPosition_frame]

@[simp] lemma updateControlsPosition_isPlaying (s : AppState) :
    (updateControlsPosition s).isPlaying = s.isPlaying := by
  conv_lhs => rw [updateControlsPosition_frame]

@[simp] lemma updateControlsPosition_videoPaused (s : AppState) :
    (updateControlsPosition s).videoPaused = s.videoPaused := by
  conv_lhs => rw [updateControlsPosition_frame]

@[simp] lemma updateControlsPosition_pending (s : AppState) :
    (updateControlsPosition s).pendingRenderLoops = s.pendingRenderLoops := by
  conv_lhs => rw [updateControlsPosition_frame]

/-- In every state the component can actually be in, the mirrored loop flag
agrees with the playback element's loop flag. -/
lemma loop_sync (s : AppState) (h : Reachable s) : s.loop = s.videoLoop := by
  induction h with
  | setup => simp [setupCanvas, initialState]
  | tick h ih => simpa [runScheduledRender] using ih
  | toggle b h ih => simpa using ih
  | loopToggle h ih => simp
  | scrub h ih => simpa using ih
  | geometry r h ih => simpa using ih
  | pointerUp h ih => simpa using ih
  | metadata d h ih => simpa [onLoadedMetadata] using ih
  | ended h ih => simpa [onEnded] using ih
  | timeAdvance t h ih => simpa using ih
  | scrubberInput sc h ih => simpa using ih

/-- C9: the time formatter computes hours, minutes and seconds by floor
division and remainder, zero-pads each to width two with no upper bound on
the hours field, so every output for nonnegative seconds matches the clock
regex, and the three sample inputs format as stated. -/
theorem formatTime_spec :
    (∀ q : ℚ, 0 ≤ q → matchesHMS (formatTime q)) ∧
      formatTime 3661 = "01:01:01" ∧ formatTime 59 = "00:00:59" ∧
        formatTime 7200 = "02:00:00" := by
  refine ⟨?_, ?_, ?_, ?_⟩
  · intro q hq
    have hq3600 : (0 : ℚ) < 3600 := by norm_num
    have hq60 : (0 : ℚ) < 60 := by norm_num
    have hm0 : 0 ≤ jsMod q 3600 / 60 := div_nonneg (jsMod_nonneg q 3600 hq hq3600) hq60.le
    have hmlt : jsMod q 3600 / 60 < 60 := by
      rw [div_lt_iff₀ hq60]
      have := jsMod_lt q 3600 hq hq3600
      linarith
    obtain ⟨hmLen, hmDig⟩ := padded_floor_small _ hm0 hmlt
    obtain ⟨hsLen, hsDig⟩ :=
      padded_floor_small _ (jsMod_nonneg q 60 hq hq60) (jsMod_lt q 60 hq hq60)
    have hh0 : (0 : ℤ) ≤ ⌊q / 3600⌋ := Int.floor_nonneg.mpr (div_nonneg hq hq3600.le)
    refine ⟨padStart2 (intToDec ⌊q / 3600⌋), padStart2 (intToDec ⌊jsMod q 3600 / 60⌋),
      padStart2 (intToDec ⌊jsMod q 60⌋), by unfold formatTime; rfl,
      padStart2_length_ge _, ?_, hmLen, hmDig, hsLen, hsDig⟩
    rw [intToDec_of_nonneg _ hh0]
    exact padStart2_all_digit _ (natToDec_all_digit _)
  · rw [formatTime_eq_of 3661 1 1 1 (by norm_num) (by norm_num [jsMod, jsTrunc])
      (by norm_num [jsMod, jsTrunc])]
    decide
  · rw [formatTime_eq_of 59 0 0 59 (by norm_num) (by norm_num [jsMod, jsTrunc])
      (by norm_num [jsMod, jsTrunc])]
    decide
  · rw [formatTime_eq_of 7200 2 0 0 (by norm_num) (by norm_num [jsMod, jsTrunc])
      (by norm_num [jsMod, jsTrunc])]
    decide

/-- C9 witness: the regex part of the formatter theorem applied at 3661. -/
theorem formatTime_spec_witness : matchesHMS (formatTime 3661) :=
  formatTime_spec.1 3661 (by norm_num)

/-- C3: a render-bridge tick that runs while isPlaying is false performs no
frame push, no repaint, and no currentTime or label update — the state is
returned unchanged — and the callback stays scheduled (the pending chain
count is unchanged). -/
theorem renderBridge_paused_tick_noop (s : AppState) (h : s.isPlaying = false) :
    runScheduledRender s = s ∧
    (runScheduledRender s).framePushCount = s.framePushCount ∧
    (runScheduledRender s).repaintCount = s.repaintCount ∧
    (runScheduledRender s).currentTime = s.currentTime ∧
    (runScheduledRender s).currentTimeLabel = s.currentTimeLabel ∧
    (runScheduledRender s).pendingRenderLoops = s.pendingRenderLoops := by
  have h1 : runScheduledRender s = s := by
    simp [runScheduledRender, renderTick, h]
  rw [h1]
  simp

/-- C3 witness: the idle-tick theorem applied to the freshly initialized
paused state. -/
theorem renderBridge_paused_tick_noop_witness :
    runScheduledRender initialState = initialState ∧
    (runScheduledRender initialState).framePushCount = initialState.framePushCount ∧
    (runScheduledRender initialState).repaintCount = initialState.repaintCount ∧
    (runScheduledRender initialState).currentTime = initialState.currentTime ∧
    (runScheduledRender initialState).currentTimeLabel = initialState.currentTimeLabel ∧
    (runScheduledRender initialState).pendingRenderLoops = initialState.pendingRenderLoops :=
  renderBridge_paused_tick_noop initialState rfl

/-- C10: the play and pause toggle flips the stored isPlaying flag to the
negation of its previous value for every state of the element and whether
or not the play call took effect, so two invocations always restore it. -/
theorem playPauseVideo_flip_unconditional (b : Bool) (s : AppState) :
    (playPauseVideo b s).isPlaying = !s.isPlaying ∧
    ∀ b2 : Bool, (playPauseVideo b2 (playPauseVideo b s)).isPlaying = s.isPlaying := by
  constructor
  · simp
  · intro b2
    simp

/-- C4: for every geometry, the control width written by the geometry
handler equals the maximum of the bounding-rectangle width and the minimum
control width constant, hence is at least that constant. -/
theorem controlBar_min_width (s : AppState) (c : ControlsStyle)
    (h : s.controls = some c) :
    ∃ cNew : ControlsStyle,
      (updateControlsPosition s).controls = some cNew ∧
      cNew.width = max s.videoObjectBounding.width MIN_CONTROL_WIDTH ∧
      MIN_CONTROL_WIDTH ≤ cNew.width := by
  refine ⟨{ width := max s.videoObjectBounding.width MIN_CONTROL_WIDTH,
            left := s.videoObjectBounding.left +
              (s.videoObjectBounding.width / 2 -
                max s.videoObjectBounding.width MIN_CONTROL_WIDTH / 2),
            top := s.videoObjectBounding.top + s.videoObjectBounding.height +
              CONTROL_OFFSET,
            visibility := "hidden" }, ?_, rfl, le_max_right _ _⟩
  simp [updateControlsPosition, toggleControlVisibility, h]

/-- C4 witness: the clamping theorem applied to the initial state, whose
bounding rectangle is 576 wide. -/
theorem controlBar_min_width_witness :
    ∃ cNew : ControlsStyle,
      (updateControlsPosition initialState).controls = some cNew ∧
      cNew.width = max initialState.videoObjectBounding.width MIN_CONTROL_WIDTH ∧
      MIN_CONTROL_WIDTH ≤ cNew.width :=
  controlBar_min_width initialState
    { width := 0, left := 0, top := 0, visibility := "visible" } rfl

/-- C6: in every reachable state, toggling the loop setting once leaves the
element flag equal to the mirrored flag, and toggling twice restores both
flags to their original values. -/
theorem loopToggle_involution (s : AppState) (h : Reachable s) :
    (changeLoopSetting s).videoLoop = (changeLoopSetting s).loop ∧
    (changeLoopSetting (changeLoopSetting s)).videoLoop =
      (changeLoopSetting (changeLoopSetting s)).loop ∧
    (changeLoopSetting (changeLoopSetting s)).loop = s.loop ∧
    (changeLoopSetting (changeLoopSetting s)).videoLoop = s.videoLoop := by
  have hs := loop_sync s h
  simp [hs]

/-- C6 witness: the double-toggle theorem applied at the state right after
setup. -/
theorem loopToggle_involution_witness :
    (changeLoopSetting (setupCanvas initialState)).videoLoop =
      (changeLoopSetting (setupCanvas initialState)).loop ∧
    (changeLoopSetting (changeLoopSetting (setupCanvas initialState))).videoLoop =
      (changeLoopSetting (changeLoopSetting (setupCanvas initialState))).loop ∧
    (changeLoopSetting (changeLoopSetting (setupCanvas initialState))).loop =
      (setupCanvas initialState).loop ∧
    (changeLoopSetting (changeLoopSetting (setupCanvas initialState))).videoLoop =
      (setupCanvas initialState).videoLoop :=
  loopToggle_involution _ Reachable.setup

/-- C5: setting the scrubber to value 60 of max 120 makes the change
handler seek the element to 60, mirror currentTime 60, set the label to
"00:01:00" and write fill percent 50 into the gradient, for every state —
in particular without requiring isPlaying to be true, which the last
conjunct records. -/
theorem scrubber_half_of_120_paused (s : AppState) (bg : JSVal)
    (h : s.scrubber = some { value := 60, max := 120, background := bg }) :
    (onScrubberChange s).currentTime = 60 ∧
    (onScrubberChange s).videoCurrentTime = 60 ∧
    (onScrubberChange s).currentTimeLabel = "00:01:00" ∧
    (onScrubberChange s).scrubber =
      some { value := 60, max := 120, background := JSVal.finite 50 } ∧
    (onScrubberChange s).isPlaying = s.isPlaying := by
  have h50 : jsMulC (jsDiv (60 : ℚ) 120) 100 = JSVal.finite 50 := by
    norm_num [jsDiv, jsMulC]
  refine ⟨?_, ?_, ?_, ?_, onScrubberChange_isPlaying s⟩ <;>
    simp [onScrubberChange, h, h50, formatTime_sixty]

/-- C5 witness: the scrubbing theorem applied to the paused initial state
with the scrubber at 60 of 120. -/
theorem scrubber_half_of_120_paused_witness :
    (onScrubberChange { initialState with
      scrubber := some { value := 60, max := 120, background := JSVal.finite 0 } }).currentTime
        = 60 ∧
    (onScrubberChange { initialState with
      scrubber := some { value := 60, max := 120, background := JSVal.finite 0 } }).videoCurrentTime
        = 60 ∧
    (onScrubberChange { initialState with
      scrubber := some { value := 60, max := 120, background := JSVal.finite 0 } }).currentTimeLabel
        = "00:01:00" ∧
    (onScrubberChange { initialState with
      scrubber := some { value := 60, max := 120, background := JSVal.finite 0 } }).scrubber
        = some { value := 60, max := 120, background := JSVal.finite 50 } ∧
    (onScrubberChange { initialState with
      scrubber := some { value := 60, max := 120, background := JSVal.finite 0 } }).isPlaying
        = false :=
  scrubber_half_of_120_paused
    { initialState with
      scrubber := some { value := 60, max := 120, background := JSVal.finite 0 } }
    (JSVal.finite 0) rfl

/-- C7: the geometry event handler is idempotent — running it twice on the
same geometry produces the same state, layout and visibility included —
and its effect is confined to the controls style: every playback field and
derived label is unchanged. -/
theorem geometry_handler_idempotent_scoped (s : AppState) :
    updateControlsPosition (updateControlsPosition s) = updateControlsPosition s ∧
    updateControlsPosition s = { s with controls := (updateControlsPosition s).controls } ∧
    (updateControlsPosition s).isPlaying = s.isPlaying ∧
    (updateControlsPosition s).currentTime = s.currentTime ∧
    (updateControlsPosition s).videoDuration = s.videoDuration ∧
    (updateControlsPosition s).loop = s.loop ∧
    (updateControlsPosition s).currentTimeLabel = s.currentTimeLabel ∧
    (updateControlsPosition s).videoDurationLabel = s.videoDurationLabel := by
  have hframe := updateControlsPosition_frame s
  refine ⟨?_, hframe, ?_, ?_, ?_, ?_, ?_, ?_⟩
  · cases hc : s.controls with
    | none =>
        have h1 : updateControlsPosition s = s := by
          simp [updateControlsPosition, toggleControlVisibility, hc]
        rw [h1, h1]
    | some c =>
        simp [updateControlsPosition, toggleControlVisibility, hc]
  all_goals conv_lhs => rw [hframe]

/-- C1 (evidence for the code bug): in a playing state whose duration is
still 0 because metadata has not loaded, the render tick does not skip the
fill computation — it writes the non-finite quotient (the NaN) into the
scrubber gradient. -/
theorem renderTick_unknown_duration_nan :
    ({ initialState with isPlaying := true } : AppState).videoDuration = 0 ∧
    (renderTick { initialState with isPlaying := true }).scrubber =
      some { value := 0, max := 0, background := JSVal.nonFinite } := by
  constructor
  · rfl
  · simp [renderTick, initialState, jsDiv, jsMulC]

/-- C2 (evidence for the code bug): setupCanvas leaves two concurrent
self-rescheduling render loops behind (one started inside playPauseVideo,
one started directly), and every further play or pause toggle starts yet
another one. -/
theorem renderLoop_started_repeatedly :
    (setupCanvas initialState).pendingRenderLoops = 2 ∧
    (playPauseVideo true (setupCanvas initialState)).pendingRenderLoops = 3 := by
  have h1 : (setupCanvas initialState).pendingRenderLoops = 2 := by
    simp [setupCanvas, initialState]
  exact ⟨h1, by simp [h1]⟩

/-- C8 (counterexample): with the scrubber element absent, the code-level
handler leaves currentTime and its label untouched, whereas the handler
the claim describes — skipping only the gradient mutation — would still
seek to the event value and update the label; the two disagree at this
concrete input. -/
theorem scrubberMissing_counterexample :
    (onScrubberChange { initialState with scrubber := none }).currentTime = 0 ∧
    (onScrubberChange { initialState with scrubber := none }).currentTimeLabel = "00:00:00" ∧
    (onScrubberChangeSkipGradientOnly 60 120
      { initialState with scrubber := none }).currentTime = 60 ∧
    (onScrubberChangeSkipGradientOnly 60 120
      { initialState with scrubber := none }).currentTimeLabel = "00:01:00" ∧
    onScrubberChange { initialState with scrubber := none } ≠
      onScrubberChangeSkipGradientOnly 60 120 { initialState with scrubber := none } := by
  have h1 : (onScrubberChange { initialState with scrubber := none }).currentTime = 0 := by
    simp [onScrubberChange, initialState]
  have h3 : (onScrubberChangeSkipGradientOnly 60 120
      { initialState with scrubber := none }).currentTime = 60 := by
    simp [onScrubberChangeSkipGradientOnly, initialState]
  refine ⟨h1, by simp [onScrubberChange, initialState], h3, ?_, ?_⟩
  · simp [onScrubberChangeSkipGradientOnly, initialState, formatTime_sixty]
  · intro heq
    have hct := congrArg AppState.currentTime heq
    rw [h1, h3] at hct
    norm_num at hct

/-- C8 (amended): when the scrubber element is absent the handler silently
skips the whole scrubber-dependent block — gradient update, seek,
currentTime mirror and label update — and performs only the repaint
request; no error propagates. -/
theorem scrubberMissing_only_repaint (s : AppState) (h : s.scrubber = none) :
    onScrubberChange s = { s with repaintCount := s.repaintCount + 1 } := by
  simp [onScrubberChange, h]

/-- C8 witness: the amended theorem applied to the initial state with its
scrubber removed. -/
theorem scrubberMissing_only_repaint_witness :
    onScrubberChange { initialState with scrubber := none } =
      { initialState with
          scrubber := none
          repaintCount := initialState.repaintCount + 1 } :=
  scrubberMissing_only_repaint { initialState with scrubber := none } rfl
